import Mathlib

/-!
Shallow embedding of `mlqm/core.py` (class `Dataset`), covering
`Dataset.__init__`, `Dataset.load`, `Dataset.save`, `Dataset.find_trainers`
and `Dataset.train`, together with theorems about them.

The modules `train` (providing `k_means_loop`) and `krr` (providing
`krr.train`) are imported by `core.py` but their code is not part of the
repository snapshot under verification; they are modelled abstractly as
function parameters, with the properties the specification states about them
taken as hypotheses where a theorem needs them.
-/

/-- Python exception kinds that the embedded code can raise. -/
inductive PyErr
  | runtimeError
  | nameError
  | keyError
  | indexError
  | typeError
  | fileError
  deriving DecidableEq, Repr

/-- The value stored under the `"trainers"` key of `self.data`:
either the Python literal `False` (the in-progress/invalid sentinel written
at core.py line 306) or a list of trainer indices (line 312). -/
inductive TrainersVal
  | invalid
  | computed (l : List Nat)
  deriving DecidableEq, Repr

/-- The part of `self.data` that `find_trainers` reads and writes:
the optional `"trainers"` entry (`none` models the key being absent). -/
structure DData where
  trainers : Option TrainersVal
  deriving DecidableEq, Repr

/-- The part of `self.setup` that `find_trainers` reads: the optional
entries `"M"` (number of clusters, line 309/310) and `"K"` (iteration cap,
lines 295-298).  `none` models the key being absent; looking up an absent
`"M"` raises `KeyError` in Python. -/
structure DSetup where
  M : Option Nat
  K : Option Nat
  deriving DecidableEq, Repr

/-- The dataset state seen by `find_trainers`: `self.setup` and `self.data`. -/
structure DState where
  setup : DSetup
  data : DData
  deriving DecidableEq, Repr

/-- Keyword-argument names passed to `find_trainers` (`**kwargs`);
only membership of `"remove"` is inspected by the embedded code. -/
abbrev KWArgs := List String

/-- The per-cluster candidate map returned by `train.k_means_loop`:
for each cluster, an ordered list of (rank, representation-index) pairs. -/
abbrev TMap := List (List (Nat × Nat))

/-- Modelled from the spec: the signature of `train.k_means_loop`
(module `train` is not in the repository snapshot).  It receives the grand
representations, the cluster count `M`, the iteration cap `K` and the
keyword arguments, and either raises or returns the pair
`(t_map, close_pts)`. -/
abbrev KMeansLoop :=
  Option (List Int) → Nat → Nat → KWArgs → Except PyErr (TMap × List Nat)

/-- Python `str.lower()` restricted to the ASCII case mapping, which is all
the strategy-name comparison in `core.py` relies on. -/
def pyLower (s : String) : String := ⟨s.data.map Char.toLower⟩

/-- The accepted spellings for the k-means strategy (core.py line 294). -/
def kmeansNames : List String := ["kmeans", "k-means", "k_means"]

/-- The accepted spellings for kernel ridge training (core.py line 323). -/
def krrNames : List String := ["krr", "kernel_ridge"]

/-- The trainer-extraction loop of `find_trainers` (core.py lines 310-311):
`for pt in range(0, M): trainers.append(t_map[pt][close_pts[pt]][1])`,
appending in increasing `pt` order; `none` models an `IndexError`. -/
def extract (t_map : TMap) (close_pts : List Nat) : Nat → Option (List Nat)
  | 0 => some []
  | m + 1 =>
    match extract t_map close_pts m, t_map.get? m, close_pts.get? m with
    | some rest, some cl, some cp =>
      match cl.get? cp with
      | some pr => some (rest ++ [pr.2])
      | none => none
    | _, _, _ => none

/-- Python `sorted(trainers, reverse=True)` on a list of indices
(core.py lines 312-313). -/
def pySortedDesc (l : List Nat) : List Nat := l.insertionSort (· ≥ ·)

/-- The observable outcome of one `find_trainers` call: the returned value
or raised exception, the post-call dataset state, whether the removed-points
note was printed (line 293), whether `k_means_loop` was invoked, the
iteration cap passed to it, and the value of `data["trainers"]` at the
moment of that invocation (`none` when it was not invoked). -/
structure FTRes where
  ret : Except PyErr (List Nat)
  st : DState
  warned : Bool
  samplerCalled : Bool
  kPassed : Option Nat
  trainersAtInvoke : Option (Option TrainersVal)
  deriving Repr

/-- Embedding of `Dataset.find_trainers` (core.py lines 287-316).
Control flow follows the source: print the removal note when `"remove"` is
among the kwargs; dispatch on the lowercased strategy name; read the
iteration cap `K` (default 30); return a cached `data["trainers"]` when it
is present and not `False`; otherwise write the `False` sentinel, call
`train.k_means_loop(grand["representations"], setup["M"], K, **kwargs)`,
extract one index per cluster, and store and return the
descending-sorted list. -/
def find_trainers (ds : DState) (grandReps : Option (List Int))
    (traintype : String) (kw : KWArgs) (kml : KMeansLoop) : FTRes :=
  let warned := decide ("remove" ∈ kw)
  if pyLower traintype ∈ kmeansNames then
    let K := ds.setup.K.getD 30
    match ds.data.trainers with
    | some (.computed l) => ⟨.ok l, ds, warned, false, none, none⟩
    | _ =>
      let ds1 : DState := { ds with data := { trainers := some .invalid } }
      match ds.setup.M with
      | none => ⟨.error .keyError, ds1, warned, false, none, none⟩
      | some M =>
        match kml grandReps M K kw with
        | .error e => ⟨.error e, ds1, warned, true, some K, some ds1.data.trainers⟩
        | .ok (t_map, close_pts) =>
          match extract t_map close_pts M with
          | none => ⟨.error .indexError, ds1, warned, true, some K, some ds1.data.trainers⟩
          | some trainers =>
            ⟨.ok (pySortedDesc trainers),
             { ds with data := { trainers := some (.computed (pySortedDesc trainers)) } },
             warned, true, some K, some ds1.data.trainers⟩
  else ⟨.error .runtimeError, ds, warned, false, none, none⟩

/-- Modelled from the spec: the signature of `krr.train` (module `krr` is
not in the repository snapshot); it returns the pair `(ds, t_AVG)`. -/
abbrev KRRTrain := DState → KWArgs → DState × Int

/-- Embedding of `Dataset.train` (core.py lines 318-329): dispatch on the
lowercased strategy name, delegate to `krr.train`, or raise. -/
def Dataset.train (ds : DState) (traintype : String) (kw : KWArgs)
    (krrT : KRRTrain) : Except PyErr (DState × Int) :=
  if pyLower traintype ∈ krrNames then .ok (krrT ds kw)
  else .error .runtimeError

/-!
Embedding of `Dataset.__init__`, `Dataset.load` and `Dataset.save`
(core.py lines 182-285).  For this persistence view `setup` and `data` are
arbitrary JSON documents; `find_trainers` above works on the refined view of
the specific keys it touches.
-/

/-- JSON documents, as produced and consumed by `json.dump`/`json.load`. -/
inductive JVal
  | null
  | jbool (b : Bool)
  | jint (n : Int)
  | jstr (s : String)
  | jarr (xs : List JVal)
  | jobj (kvs : List (String × JVal))

/-- Key lookup in a JSON object, as Python `d[key]` on the dict produced by
`json.load` (keys in the documents this program writes are distinct). -/
def jlookup (kvs : List (String × JVal)) (k : String) : Option JVal :=
  match kvs with
  | [] => none
  | (k', v) :: rest => if k' = k then some v else jlookup rest k

/-- Modelled from the spec: the filesystem as a map from paths to the
structured documents stored there.  The spec states that the persisted
`DatasetState` document round-trips losslessly through `json.dump` /
`json.load` for primitive values, so the serialized text layer is not
modelled separately. -/
abbrev FileSys := String → Option JVal

/-- Writing a document at a path. -/
def fsWrite (fs : FileSys) (loc : String) (v : JVal) : FileSys :=
  fun p => if p = loc then some v else fs p

/-- Modelled from the spec: `np.load` as a map from `.npy` paths to arrays
(arrays are abstracted to flat integer lists; no claim inspects their
numeric contents). -/
abbrev NpyStore := String → Option (List Int)

/-- `self.grand`: the `"representations"` and `"values"` entries
(core.py lines 188-191), each `None` until assigned. -/
structure Grand where
  representations : Option (List Int)
  values : Option (List Int)
  deriving DecidableEq, Repr

/-- The dataset attributes touched by `__init__`/`load`/`save`.
In the source, `inpf`/`setup`/`data` may be left unassigned on some paths;
no claim observes an unassigned attribute, and the defaults used for a
fresh object are `none`/`JVal.null`/`JVal.null`. -/
structure DatasetP where
  inpf : Option String
  setup : JVal
  data : JVal
  grand : Grand

/-- The outcome of a mutating `Dataset` call: the normal return or raised
exception, and the object state afterwards (attribute assignments made
before an exception persist, as in Python). -/
structure LRes where
  ret : Except PyErr Unit
  st : DatasetP

/-- The `inpf` argument of `__init__`/`load`: `None`, a `str` path, a
`dict`, or any other object. -/
inductive InpfArg
  | noneV
  | strV (s : String)
  | dictV (kvs : List (String × JVal))
  | otherV

/-- The `reps`/`vals` arguments of `__init__`/`load`: `None`, a `str`
`.npy` path, a `numpy.ndarray`, a `list`, or any other object. -/
inductive PyArg
  | noneV
  | strV (s : String)
  | ndV (a : List Int)
  | listV (l : List Int)
  | otherV
  deriving DecidableEq, Repr

/-- The `inpf` handling shared by `__init__` (lines 193-205) and `load`
(lines 240-252).  In the `dict` branch the source reads `inp['data']`
(line 203 / line 250), but the local name `inp` is only assigned in the
`str` branch, so Python raises `NameError` there after `self.inpf` and
`self.setup` have already been assigned.  Subscripting a non-object
document raises `TypeError`; a missing key raises `KeyError`; a
non-str/dict/None argument only prints a message and continues. -/
def applyInpf (ds : DatasetP) (inpf : InpfArg) (fs : FileSys) : LRes :=
  match inpf with
  | .noneV => ⟨.ok (), ds⟩
  | .strV s =>
    match fs s with
    | none => ⟨.error .fileError, ds⟩
    | some j =>
      let ds1 := { ds with inpf := some s }
      match j with
      | .jobj kvs =>
        match jlookup kvs "setup" with
        | none => ⟨.error .keyError, ds1⟩
        | some sv =>
          let ds2 := { ds1 with setup := sv }
          match jlookup kvs "data" with
          | none => ⟨.error .keyError, ds2⟩
          | some dv => ⟨.ok (), { ds2 with data := dv }⟩
      | _ => ⟨.error .typeError, ds1⟩
  | .dictV kvs =>
    let ds1 := { ds with inpf := none }
    match jlookup kvs "setup" with
    | none => ⟨.error .keyError, ds1⟩
    | some sv => ⟨.error .nameError, { ds1 with setup := sv }⟩
  | .otherV => ⟨.ok (), ds⟩

/-- The `reps` handling shared by `__init__` (lines 207-216) and `load`
(lines 254-263): a `str` is loaded with `np.load`, an `ndarray` is stored
as is, a `list` goes through `np.asarray`, anything else raises
`RuntimeError` without touching the state. -/
def applyReps (ds : DatasetP) (reps : PyArg) (npy : NpyStore) : LRes :=
  match reps with
  | .noneV => ⟨.ok (), ds⟩
  | .strV s =>
    match npy s with
    | none => ⟨.error .fileError, ds⟩
    | some a => ⟨.ok (), { ds with grand := { ds.grand with representations := some a } }⟩
  | .ndV a => ⟨.ok (), { ds with grand := { ds.grand with representations := some a } }⟩
  | .listV l => ⟨.ok (), { ds with grand := { ds.grand with representations := some l } }⟩
  | .otherV => ⟨.error .runtimeError, ds⟩

/-- The `vals` handling shared by `__init__` (lines 218-227) and `load`
(lines 265-274), symmetric to `applyReps` on the `"values"` entry. -/
def applyVals (ds : DatasetP) (vals : PyArg) (npy : NpyStore) : LRes :=
  match vals with
  | .noneV => ⟨.ok (), ds⟩
  | .strV s =>
    match npy s with
    | none => ⟨.error .fileError, ds⟩
    | some a => ⟨.ok (), { ds with grand := { ds.grand with values := some a } }⟩
  | .ndV a => ⟨.ok (), { ds with grand := { ds.grand with values := some a } }⟩
  | .listV l => ⟨.ok (), { ds with grand := { ds.grand with values := some l } }⟩
  | .otherV => ⟨.error .runtimeError, ds⟩

/-- Embedding of `Dataset.load` (core.py lines 235-275): the three argument
handlers in order, stopping at the first raised exception. -/
def Dataset.load (ds : DatasetP) (inpf : InpfArg) (reps vals : PyArg)
    (fs : FileSys) (npy : NpyStore) : LRes :=
  match applyInpf ds inpf fs with
  | ⟨.error e, st⟩ => ⟨.error e, st⟩
  | ⟨.ok _, st1⟩ =>
    match applyReps st1 reps npy with
    | ⟨.error e, st⟩ => ⟨.error e, st⟩
    | ⟨.ok _, st2⟩ => applyVals st2 vals npy

/-- A freshly constructed object before `__init__` body runs: empty grand
entries (lines 188-191), other attributes unassigned (modelled by their
defaults). -/
def dsFresh : DatasetP := ⟨none, JVal.null, JVal.null, ⟨none, none⟩⟩

/-- Embedding of `Dataset.__init__` (core.py lines 182-233): same argument
handling as `load` on a fresh object, plus the final all-`None` branch
(lines 228-232) that installs empty `setup`/`data` dicts.  (The final
`(inpf == None) and (reps == None) and (vals == None)` test is reached with
a non-`None` argument only on paths no claim exercises, so the
numpy-version-dependent semantics of `ndarray == None` are not modelled.) -/
def Dataset.init (inpf : InpfArg) (reps vals : PyArg)
    (fs : FileSys) (npy : NpyStore) : LRes :=
  match inpf, reps, vals with
  | .noneV, .noneV, .noneV =>
    ⟨.ok (), ⟨none, JVal.jobj [], JVal.jobj [], ⟨none, none⟩⟩⟩
  | _, _, _ => Dataset.load dsFresh inpf reps vals fs npy

/-- Python truthiness of the `self.inpf` attribute (`None` and the empty
string are falsy). -/
def pyTruthyStr : Option String → Bool
  | none => false
  | some s => !s.isEmpty

/-- Embedding of `Dataset.save` (core.py lines 277-285): write
`{"setup": self.setup, "data": self.data}` at `self.inpf` when truthy,
else at `loc`.  With the default `loc=False` and falsy `inpf`, the source
calls `open(False, 'w')`; no claim exercises that path and it is modelled
as an error. -/
def Dataset.save (ds : DatasetP) (loc : Option String) (fs : FileSys) :
    Except PyErr FileSys :=
  let locStr : Option String := if pyTruthyStr ds.inpf then ds.inpf else loc
  match locStr with
  | none => .error .typeError
  | some l => .ok (fsWrite fs l (JVal.jobj [("setup", ds.setup), ("data", ds.data)]))

/-!
Helper lemmas about `pySortedDesc` and `extract`.
-/

theorem pySortedDesc_sorted (l : List Nat) :
    (pySortedDesc l).Sorted (· ≥ ·) :=
  List.sorted_insertionSort (· ≥ ·) l

theorem pySortedDesc_perm (l : List Nat) : List.Perm (pySortedDesc l) l :=
  List.perm_insertionSort (· ≥ ·) l

theorem pySortedDesc_length (l : List Nat) :
    (pySortedDesc l).length = l.length :=
  (pySortedDesc_perm l).length_eq

theorem pySortedDesc_nodup {l : List Nat} (h : l.Nodup) :
    (pySortedDesc l).Nodup :=
  ((pySortedDesc_perm l).nodup_iff).mpr h

/-- A descending-sorted list with no duplicates is strictly descending. -/
theorem pySortedDesc_strict {l : List Nat} (h : l.Nodup) :
    (pySortedDesc l).Pairwise (· > ·) := by
  have hs : (pySortedDesc l).Pairwise (· ≥ ·) := pySortedDesc_sorted l
  have hn : (pySortedDesc l).Pairwise (· ≠ ·) := pySortedDesc_nodup h
  exact (hs.and hn).imp fun hab => lt_of_le_of_ne hab.1 hab.2.symm

theorem extract_length {t_map : TMap} {close_pts : List Nat} :
    ∀ {m : Nat} {tr : List Nat}, extract t_map close_pts m = some tr →
      tr.length = m := by
  intro m
  induction m with
  | zero => intro tr h; simp [extract] at h; simp [← h]
  | succ m ih =>
    intro tr h
    unfold extract at h
    split at h
    · rename_i rest cl cp hrest hcl hcp
      split at h
      · rename_i pr hpr
        cases h
        simp [ih hrest]
      · exact absurd h (by simp)
    · exact absurd h (by simp)

/-- Each entry of an extracted list is `t_map[pt][close_pts[pt]][1]`. -/
theorem extract_get? {t_map : TMap} {close_pts : List Nat} :
    ∀ {m : Nat} {tr : List Nat}, extract t_map close_pts m = some tr →
      ∀ pt, pt < m → tr.get? pt =
        ((t_map.get? pt).bind fun cl => (close_pts.get? pt).bind fun i =>
          (cl.get? i).map Prod.snd) := by
  intro m
  induction m with
  | zero => intro tr _ pt hpt; omega
  | succ m ih =>
    intro tr h pt hpt
    unfold extract at h
    split at h
    · rename_i rest cl cp hrest hcl hcp
      split at h
      · rename_i pr hpr
        cases h
        rcases Nat.lt_succ_iff_lt_or_eq.mp hpt with hlt | heq
        · rw [List.get?_append (by rw [extract_length hrest]; exact hlt)]
          exact ih hrest pt hlt
        · subst heq
          rw [← extract_length hrest, List.get?_concat_length]
          rw [extract_length hrest, hcl, hcp]
          have hpr' : cl[cp]? = some pr := by
            rw [← List.get?_eq_getElem?]; exact hpr
          simp [hpr']
      · exact absurd h (by simp)
    · exact absurd h (by simp)

/-- Every extracted index comes from the candidate list of some cluster
with position below `m`. -/
theorem extract_mem {t_map : TMap} {close_pts : List Nat} :
    ∀ {m : Nat} {tr : List Nat} {x : Nat},
      extract t_map close_pts m = some tr → x ∈ tr →
      ∃ pt cl pr, pt < m ∧ t_map.get? pt = some cl ∧ pr ∈ cl ∧ pr.2 = x := by
  intro m
  induction m with
  | zero => intro tr x h hx; simp [extract] at h; subst h; cases hx
  | succ m ih =>
    intro tr x h hx
    unfold extract at h
    split at h
    · rename_i rest cl cp hrest hcl hcp
      split at h
      · rename_i pr hpr
        cases h
        rcases List.mem_append.mp hx with hr | hlast
        · obtain ⟨pt, cl', pr', hpt, h1, h2, h3⟩ := ih hrest hr
          exact ⟨pt, cl', pr', Nat.lt_succ_of_lt hpt, h1, h2, h3⟩
        · have hx' : x = pr.2 := by simpa using hlast
          exact ⟨m, cl, pr, Nat.lt_succ_self m, hcl, List.get?_mem hpr, hx'.symm⟩
      · exact absurd h (by simp)
    · exact absurd h (by simp)

/-- When the per-cluster candidate lists carry pairwise-distinct
representation indices (the spec's partition property for
`train.k_means_loop`), the extracted per-cluster picks are distinct. -/
theorem extract_nodup {t_map : TMap} {close_pts : List Nat}
    (hdisj : t_map.Pairwise fun c1 c2 => ∀ p ∈ c1, ∀ q ∈ c2, p.2 ≠ q.2) :
    ∀ {m : Nat} {tr : List Nat}, extract t_map close_pts m = some tr →
      tr.Nodup := by
  intro m
  induction m with
  | zero =>
    intro tr h
    simp only [extract, Option.some.injEq] at h
    subst h
    exact List.nodup_nil
  | succ m ih =>
    intro tr h
    unfold extract at h
    split at h
    · rename_i rest cl cp hrest hcl hcp
      split at h
      · rename_i pr hpr
        cases h
        rw [List.nodup_append]
        refine ⟨ih hrest, List.nodup_singleton _, ?_⟩
        intro x hx hx1
        have hx' : x = pr.2 := by simpa using hx1
        subst hx'
        obtain ⟨pt, cl', pr', hpt, h1, h2, h3⟩ := extract_mem hrest hx
        obtain ⟨hptlen, hget⟩ := List.get?_eq_some.mp h1
        obtain ⟨hmlen, hgetm⟩ := List.get?_eq_some.mp hcl
        have hR := List.pairwise_iff_get.mp hdisj ⟨pt, hptlen⟩ ⟨m, hmlen⟩
          (by simpa using hpt)
        rw [hget, hgetm] at hR
        exact hR pr' h2 pr (List.get?_mem hpr) h3
      · exact absurd h (by simp)
    · exact absurd h (by simp)

/-!
Reduction lemmas for `find_trainers` on the cache-miss path.
-/

/-- On a cache miss (`trainers` absent or `False`) with a supported
strategy, a present `M`, a successful sampler call and successful
extraction, `find_trainers` reduces to the success outcome. -/
theorem find_trainers_miss_ok (ds : DState) (reps : Option (List Int))
    (t : String) (kw : KWArgs) (kml : KMeansLoop) (M : Nat)
    (t_map : TMap) (close_pts : List Nat) (tr : List Nat)
    (hmiss : ds.data.trainers = none ∨ ds.data.trainers = some .invalid)
    (hsup : pyLower t ∈ kmeansNames)
    (hM : ds.setup.M = some M)
    (hk : kml reps M (ds.setup.K.getD 30) kw = .ok (t_map, close_pts))
    (hex : extract t_map close_pts M = some tr) :
    find_trainers ds reps t kw kml =
      ⟨.ok (pySortedDesc tr),
       { ds with data := { trainers := some (.computed (pySortedDesc tr)) } },
       decide ("remove" ∈ kw), true, some (ds.setup.K.getD 30),
       some (some .invalid)⟩ := by
  rcases hmiss with h | h <;> simp [find_trainers, hsup, h, hM, hk, hex]

/-- On a cache hit (`trainers` present and holding a list), `find_trainers`
returns the cached list without touching the state or the sampler. -/
theorem find_trainers_hit (ds : DState) (reps : Option (List Int))
    (t : String) (kw : KWArgs) (kml : KMeansLoop) (l : List Nat)
    (hc : ds.data.trainers = some (.computed l))
    (hsup : pyLower t ∈ kmeansNames) :
    find_trainers ds reps t kw kml =
      ⟨.ok l, ds, decide ("remove" ∈ kw), false, none, none⟩ := by
  simp [find_trainers, hsup, hc]

/-- The removed-points note (core.py lines 292-293) is printed exactly when
`"remove"` is among the kwargs, on every path through `find_trainers`. -/
theorem find_trainers_warned (ds : DState) (reps : Option (List Int))
    (t : String) (kw : KWArgs) (kml : KMeansLoop) :
    (find_trainers ds reps t kw kml).warned = decide ("remove" ∈ kw) := by
  unfold find_trainers
  dsimp only
  split
  · split
    · rfl
    · split
      · rfl
      · split
        · rfl
        · split
          · rfl
          · rfl
  · rfl

/-- C1: on a cache-miss call with a supported strategy name, `M` present in
`setup`, and a sampler run and extraction that complete without error
(cluster candidate lists carrying pairwise-distinct indices, per the
spec's partition property), the returned trainer list is exactly the
descending sort of the `M` per-cluster picks `t_map[pt][close_pts[pt]][1]`:
it has length `M`, is strictly descending (hence distinct), and each pick
comes from position `pt` of the cluster map. -/
theorem find_trainers_returns_sorted_distinct (ds : DState)
    (reps : Option (List Int)) (t : String) (kw : KWArgs) (kml : KMeansLoop)
    (M : Nat) (t_map : TMap) (close_pts : List Nat) (tr : List Nat)
    (hmiss : ds.data.trainers = none ∨ ds.data.trainers = some .invalid)
    (hsup : pyLower t ∈ kmeansNames)
    (hM : ds.setup.M = some M)
    (hk : kml reps M (ds.setup.K.getD 30) kw = .ok (t_map, close_pts))
    (hdisj : t_map.Pairwise fun c1 c2 => ∀ p ∈ c1, ∀ q ∈ c2, p.2 ≠ q.2)
    (hex : extract t_map close_pts M = some tr) :
    (find_trainers ds reps t kw kml).ret = .ok (pySortedDesc tr) ∧
    (pySortedDesc tr).length = M ∧
    (pySortedDesc tr).Pairwise (· > ·) ∧
    ∀ pt, pt < M → tr.get? pt =
      ((t_map.get? pt).bind fun cl => (close_pts.get? pt).bind fun i =>
        (cl.get? i).map Prod.snd) := by
  refine ⟨?_, ?_, ?_, extract_get? hex⟩
  · rw [find_trainers_miss_ok ds reps t kw kml M t_map close_pts tr
      hmiss hsup hM hk hex]
  · rw [pySortedDesc_length, extract_length hex]
  · exact pySortedDesc_strict (extract_nodup hdisj hex)

/-- C1 witness. -/
theorem find_trainers_returns_sorted_distinct_witness :
    (((⟨⟨some 2, none⟩, ⟨none⟩⟩ : DState).data.trainers = none ∨
      (⟨⟨some 2, none⟩, ⟨none⟩⟩ : DState).data.trainers = some .invalid) ∧
     pyLower "KMeans" ∈ kmeansNames) ∧
    ((find_trainers ⟨⟨some 2, none⟩, ⟨none⟩⟩ (some [10, 11, 12, 13]) "KMeans" []
        (fun _ _ _ _ => .ok ([[(0, 1)], [(0, 3)]], [0, 0]))).ret =
      .ok (pySortedDesc [1, 3]) ∧
     (pySortedDesc [1, 3]).length = 2 ∧
     (pySortedDesc [1, 3]).Pairwise (· > ·) ∧
     ∀ pt, pt < 2 → ([1, 3] : List Nat).get? pt =
       ((([[(0, 1)], [(0, 3)]] : TMap).get? pt).bind fun cl =>
         (([0, 0] : List Nat).get? pt).bind fun i =>
           (cl.get? i).map Prod.snd)) :=
  ⟨⟨Or.inl rfl, by decide⟩,
   find_trainers_returns_sorted_distinct ⟨⟨some 2, none⟩, ⟨none⟩⟩
     (some [10, 11, 12, 13]) "KMeans" []
     (fun _ _ _ _ => .ok ([[(0, 1)], [(0, 3)]], [0, 0])) 2
     [[(0, 1)], [(0, 3)]] [0, 0] [1, 3]
     (Or.inl rfl) (by decide) rfl rfl (by decide) rfl⟩

/-- C2: when `data["trainers"]` is present and not the `False` sentinel,
`find_trainers` with a supported strategy name returns the stored list
unchanged, does not invoke the clustering routine, and leaves the state
untouched, for any kwargs; hence a second call returns the same list. -/
theorem find_trainers_cache_hit_idempotent (ds : DState)
    (reps : Option (List Int)) (t : String) (kw kw' : KWArgs)
    (kml kml' : KMeansLoop) (l : List Nat)
    (hc : ds.data.trainers = some (.computed l))
    (hsup : pyLower t ∈ kmeansNames) :
    (find_trainers ds reps t kw kml).ret = .ok l ∧
    (find_trainers ds reps t kw kml).st = ds ∧
    (find_trainers ds reps t kw kml).samplerCalled = false ∧
    (find_trainers (find_trainers ds reps t kw kml).st reps t kw' kml').ret
      = .ok l := by
  rw [find_trainers_hit ds reps t kw kml l hc hsup]
  refine ⟨rfl, rfl, rfl, ?_⟩
  rw [find_trainers_hit ds reps t kw' kml' l hc hsup]

/-- C2 witness. -/
theorem find_trainers_cache_hit_idempotent_witness :
    ((⟨⟨some 2, some 5⟩, ⟨some (.computed [7, 4])⟩⟩ : DState).data.trainers
        = some (.computed [7, 4]) ∧
     pyLower "k-means" ∈ kmeansNames) ∧
    ((find_trainers ⟨⟨some 2, some 5⟩, ⟨some (.computed [7, 4])⟩⟩ none
        "k-means" ["remove"] (fun _ _ _ _ => .error .runtimeError)).ret
        = .ok [7, 4] ∧
     (find_trainers ⟨⟨some 2, some 5⟩, ⟨some (.computed [7, 4])⟩⟩ none
        "k-means" ["remove"] (fun _ _ _ _ => .error .runtimeError)).st
        = ⟨⟨some 2, some 5⟩, ⟨some (.computed [7, 4])⟩⟩ ∧
     (find_trainers ⟨⟨some 2, some 5⟩, ⟨some (.computed [7, 4])⟩⟩ none
        "k-means" ["remove"] (fun _ _ _ _ => .error .runtimeError)).samplerCalled
        = false ∧
     (find_trainers (find_trainers ⟨⟨some 2, some 5⟩, ⟨some (.computed [7, 4])⟩⟩
          none "k-means" ["remove"] (fun _ _ _ _ => .error .runtimeError)).st
        none "k-means" [] (fun _ _ _ _ => .error .runtimeError)).ret
        = .ok [7, 4]) :=
  ⟨⟨rfl, by decide⟩,
   find_trainers_cache_hit_idempotent ⟨⟨some 2, some 5⟩, ⟨some (.computed [7, 4])⟩⟩
     none "k-means" ["remove"] [] (fun _ _ _ _ => .error .runtimeError)
     (fun _ _ _ _ => .error .runtimeError) [7, 4] rfl (by decide)⟩

/-- C3: on a cache-miss call with a supported strategy name, the `False`
sentinel is in place at the moment the clustering routine is invoked, and
any raising path leaves `data["trainers"]` equal to `False`, never a
partial list. -/
theorem find_trainers_sentinel_guard (ds : DState) (reps : Option (List Int))
    (t : String) (kw : KWArgs) (kml : KMeansLoop)
    (hmiss : ds.data.trainers = none ∨ ds.data.trainers = some .invalid)
    (hsup : pyLower t ∈ kmeansNames) :
    ((find_trainers ds reps t kw kml).samplerCalled = true →
      (find_trainers ds reps t kw kml).trainersAtInvoke
        = some (some .invalid)) ∧
    ∀ e, (find_trainers ds reps t kw kml).ret = .error e →
      (find_trainers ds reps t kw kml).st.data.trainers = some .invalid := by
  rcases hM : ds.setup.M with _ | M
  · rcases hmiss with h | h <;> simp [find_trainers, hsup, h, hM]
  · rcases hk : kml reps M (ds.setup.K.getD 30) kw with e | ⟨t_map, close_pts⟩
    · rcases hmiss with h | h <;> simp [find_trainers, hsup, h, hM, hk]
    · rcases hex : extract t_map close_pts M with _ | tr
      · rcases hmiss with h | h <;> simp [find_trainers, hsup, h, hM, hk, hex]
      · rw [find_trainers_miss_ok ds reps t kw kml M t_map close_pts tr
          hmiss hsup hM hk hex]
        exact ⟨fun _ => rfl, fun e he => by cases he⟩

/-- C3 witness (sampler raising). -/
theorem find_trainers_sentinel_guard_witness :
    (((⟨⟨some 1, none⟩, ⟨some .invalid⟩⟩ : DState).data.trainers = none ∨
      (⟨⟨some 1, none⟩, ⟨some .invalid⟩⟩ : DState).data.trainers
        = some .invalid) ∧
     pyLower "k_means" ∈ kmeansNames) ∧
    (((find_trainers ⟨⟨some 1, none⟩, ⟨some .invalid⟩⟩ none "k_means" []
        (fun _ _ _ _ => .error .runtimeError)).samplerCalled = true →
      (find_trainers ⟨⟨some 1, none⟩, ⟨some .invalid⟩⟩ none "k_means" []
        (fun _ _ _ _ => .error .runtimeError)).trainersAtInvoke
        = some (some .invalid)) ∧
     ∀ e, (find_trainers ⟨⟨some 1, none⟩, ⟨some .invalid⟩⟩ none "k_means" []
        (fun _ _ _ _ => .error .runtimeError)).ret = .error e →
      (find_trainers ⟨⟨some 1, none⟩, ⟨some .invalid⟩⟩ none "k_means" []
        (fun _ _ _ _ => .error .runtimeError)).st.data.trainers
        = some .invalid) :=
  ⟨⟨Or.inr rfl, by decide⟩,
   find_trainers_sentinel_guard ⟨⟨some 1, none⟩, ⟨some .invalid⟩⟩ none
     "k_means" [] (fun _ _ _ _ => .error .runtimeError)
     (Or.inr rfl) (by decide)⟩

/-- C4: an unsupported (lowercased) strategy name makes `find_trainers`
raise and leave the state unchanged, and makes `Dataset.train` raise; both
dispatches are case-insensitive: the outcome depends on the strategy name
only through its lowercase form. -/
theorem unsupported_strategy_fatal (ds : DState) (reps : Option (List Int))
    (t t' : String) (kw : KWArgs) (kml : KMeansLoop) (krrT : KRRTrain) :
    (pyLower t ∉ kmeansNames →
      (find_trainers ds reps t kw kml).ret = .error .runtimeError ∧
      (find_trainers ds reps t kw kml).st = ds) ∧
    (pyLower t ∉ krrNames →
      Dataset.train ds t kw krrT = .error .runtimeError) ∧
    (pyLower t = pyLower t' →
      find_trainers ds reps t kw kml = find_trainers ds reps t' kw kml ∧
      Dataset.train ds t kw krrT = Dataset.train ds t' kw krrT) := by
  refine ⟨fun h => ?_, fun h => ?_, fun h => ?_⟩
  · simp [find_trainers, h]
  · simp [Dataset.train, h]
  · constructor
    · unfold find_trainers
      rw [h]
    · unfold Dataset.train
      rw [h]

/-- C4 witness. -/
theorem unsupported_strategy_fatal_witness :
    (pyLower "Simplex" ∉ kmeansNames ∧ pyLower "Simplex" ∉ krrNames ∧
     pyLower "Simplex" = pyLower "simplex") ∧
    ((find_trainers ⟨⟨none, none⟩, ⟨none⟩⟩ none "Simplex" []
        (fun _ _ _ _ => .error .runtimeError)).ret = .error .runtimeError ∧
     (find_trainers ⟨⟨none, none⟩, ⟨none⟩⟩ none "Simplex" []
        (fun _ _ _ _ => .error .runtimeError)).st = ⟨⟨none, none⟩, ⟨none⟩⟩) ∧
    Dataset.train ⟨⟨none, none⟩, ⟨none⟩⟩ "Simplex" [] (fun d _ => (d, 0))
      = .error .runtimeError ∧
    Dataset.train ⟨⟨none, none⟩, ⟨none⟩⟩ "Simplex" [] (fun d _ => (d, 0))
      = Dataset.train ⟨⟨none, none⟩, ⟨none⟩⟩ "simplex" [] (fun d _ => (d, 0)) :=
  ⟨⟨by decide, by decide, by decide⟩,
   (unsupported_strategy_fatal ⟨⟨none, none⟩, ⟨none⟩⟩ none "Simplex" "simplex"
     [] (fun _ _ _ _ => .error .runtimeError) (fun d _ => (d, 0))).1 (by decide),
   (unsupported_strategy_fatal ⟨⟨none, none⟩, ⟨none⟩⟩ none "Simplex" "simplex"
     [] (fun _ _ _ _ => .error .runtimeError) (fun d _ => (d, 0))).2.1 (by decide),
   ((unsupported_strategy_fatal ⟨⟨none, none⟩, ⟨none⟩⟩ none "Simplex" "simplex"
     [] (fun _ _ _ _ => .error .runtimeError) (fun d _ => (d, 0))).2.2
     (by decide)).2⟩

/-- C5 counterexample: with the `"remove"` flag set and valid cached
trainers `[5, 2]`, `find_trainers` prints the note but returns exactly the
stale cached indices, contradicting the claim that it does not return
them. -/
theorem remove_flag_returns_stale_cache :
    ("remove" ∈ (["remove"] : KWArgs)) ∧
    (⟨⟨some 2, none⟩, ⟨some (.computed [5, 2])⟩⟩ : DState).data.trainers
      = some (.computed [5, 2]) ∧
    (find_trainers ⟨⟨some 2, none⟩, ⟨some (.computed [5, 2])⟩⟩
      (some [10, 11, 12]) "kmeans" ["remove"]
      (fun _ _ _ _ => .error .runtimeError)).warned = true ∧
    (find_trainers ⟨⟨some 2, none⟩, ⟨some (.computed [5, 2])⟩⟩
      (some [10, 11, 12]) "kmeans" ["remove"]
      (fun _ _ _ _ => .error .runtimeError)).ret = .ok [5, 2] := by
  have h := find_trainers_hit ⟨⟨some 2, none⟩, ⟨some (.computed [5, 2])⟩⟩
    (some [10, 11, 12]) "kmeans" ["remove"]
    (fun _ _ _ _ => .error .runtimeError) [5, 2] rfl (by decide)
  rw [h]
  exact ⟨by decide, rfl, by decide, rfl⟩

/-- C5 (amended): a call whose options include the `"remove"` flag always
prints the invalidation note, and when trainers were previously cached it
still returns the cached indices unchanged (warning only, no
recomputation and no invalidation). -/
theorem remove_flag_warns_only (ds : DState) (reps : Option (List Int))
    (t : String) (kw : KWArgs) (kml : KMeansLoop)
    (hrem : "remove" ∈ kw) :
    (find_trainers ds reps t kw kml).warned = true ∧
    ∀ l, ds.data.trainers = some (.computed l) → pyLower t ∈ kmeansNames →
      (find_trainers ds reps t kw kml).ret = .ok l ∧
      (find_trainers ds reps t kw kml).samplerCalled = false := by
  refine ⟨?_, fun l hc hsup => ?_⟩
  · rw [find_trainers_warned]
    exact decide_eq_true hrem
  · rw [find_trainers_hit ds reps t kw kml l hc hsup]
    exact ⟨rfl, rfl⟩

/-- C5 (amended) witness. -/
theorem remove_flag_warns_only_witness :
    ("remove" ∈ (["remove"] : KWArgs)) ∧
    ((find_trainers ⟨⟨some 2, none⟩, ⟨some (.computed [5, 2])⟩⟩
        (some [10, 11, 12]) "kmeans" ["remove"]
        (fun _ _ _ _ => .error .runtimeError)).warned = true ∧
     ∀ l, (⟨⟨some 2, none⟩, ⟨some (.computed [5, 2])⟩⟩ : DState).data.trainers
        = some (.computed l) → pyLower "kmeans" ∈ kmeansNames →
      (find_trainers ⟨⟨some 2, none⟩, ⟨some (.computed [5, 2])⟩⟩
        (some [10, 11, 12]) "kmeans" ["remove"]
        (fun _ _ _ _ => .error .runtimeError)).ret = .ok l ∧
      (find_trainers ⟨⟨some 2, none⟩, ⟨some (.computed [5, 2])⟩⟩
        (some [10, 11, 12]) "kmeans" ["remove"]
        (fun _ _ _ _ => .error .runtimeError)).samplerCalled = false) :=
  ⟨by decide,
   remove_flag_warns_only ⟨⟨some 2, none⟩, ⟨some (.computed [5, 2])⟩⟩
     (some [10, 11, 12]) "kmeans" ["remove"]
     (fun _ _ _ _ => .error .runtimeError) (by decide)⟩

/-- C6: on a successful cache-miss call, the list stored in
`data["trainers"]` equals the returned list, and a subsequent call with the
same arguments is a cache hit returning that same descending-sorted list
without invoking the sampler. -/
theorem persisted_equals_returned (ds : DState) (reps : Option (List Int))
    (t : String) (kw : KWArgs) (kml : KMeansLoop) (M : Nat)
    (t_map : TMap) (close_pts : List Nat) (tr : List Nat)
    (hmiss : ds.data.trainers = none ∨ ds.data.trainers = some .invalid)
    (hsup : pyLower t ∈ kmeansNames)
    (hM : ds.setup.M = some M)
    (hk : kml reps M (ds.setup.K.getD 30) kw = .ok (t_map, close_pts))
    (hex : extract t_map close_pts M = some tr) :
    (find_trainers ds reps t kw kml).ret = .ok (pySortedDesc tr) ∧
    (find_trainers ds reps t kw kml).st.data.trainers
      = some (.computed (pySortedDesc tr)) ∧
    (find_trainers (find_trainers ds reps t kw kml).st reps t kw kml).ret
      = .ok (pySortedDesc tr) ∧
    (find_trainers (find_trainers ds reps t kw kml).st reps t kw
      kml).samplerCalled = false := by
  rw [find_trainers_miss_ok ds reps t kw kml M t_map close_pts tr
    hmiss hsup hM hk hex]
  refine ⟨rfl, rfl, ?_, ?_⟩ <;>
    rw [find_trainers_hit _ reps t kw kml (pySortedDesc tr) rfl hsup]

/-- C6 witness. -/
theorem persisted_equals_returned_witness :
    (((⟨⟨some 2, none⟩, ⟨none⟩⟩ : DState).data.trainers = none ∨
      (⟨⟨some 2, none⟩, ⟨none⟩⟩ : DState).data.trainers = some .invalid) ∧
     pyLower "kmeans" ∈ kmeansNames ∧
     extract [[(0, 1)], [(0, 3)]] [0, 0] 2 = some [1, 3]) ∧
    ((find_trainers ⟨⟨some 2, none⟩, ⟨none⟩⟩ (some [10, 11, 12, 13]) "kmeans"
        [] (fun _ _ _ _ => .ok ([[(0, 1)], [(0, 3)]], [0, 0]))).ret
        = .ok (pySortedDesc [1, 3]) ∧
     (find_trainers ⟨⟨some 2, none⟩, ⟨none⟩⟩ (some [10, 11, 12, 13]) "kmeans"
        [] (fun _ _ _ _ => .ok ([[(0, 1)], [(0, 3)]], [0, 0]))).st.data.trainers
        = some (.computed (pySortedDesc [1, 3])) ∧
     (find_trainers (find_trainers ⟨⟨some 2, none⟩, ⟨none⟩⟩
          (some [10, 11, 12, 13]) "kmeans" []
          (fun _ _ _ _ => .ok ([[(0, 1)], [(0, 3)]], [0, 0]))).st
        (some [10, 11, 12, 13]) "kmeans" []
        (fun _ _ _ _ => .ok ([[(0, 1)], [(0, 3)]], [0, 0]))).ret
        = .ok (pySortedDesc [1, 3]) ∧
     (find_trainers (find_trainers ⟨⟨some 2, none⟩, ⟨none⟩⟩
          (some [10, 11, 12, 13]) "kmeans" []
          (fun _ _ _ _ => .ok ([[(0, 1)], [(0, 3)]], [0, 0]))).st
        (some [10, 11, 12, 13]) "kmeans" []
        (fun _ _ _ _ => .ok ([[(0, 1)], [(0, 3)]], [0, 0]))).samplerCalled
        = false) :=
  ⟨⟨Or.inl rfl, by decide, rfl⟩,
   persisted_equals_returned ⟨⟨some 2, none⟩, ⟨none⟩⟩ (some [10, 11, 12, 13])
     "kmeans" [] (fun _ _ _ _ => .ok ([[(0, 1)], [(0, 3)]], [0, 0])) 2
     [[(0, 1)], [(0, 3)]] [0, 0] [1, 3] (Or.inl rfl) (by decide) rfl rfl rfl⟩

/-- C9: on a cache-miss call with a supported strategy and `M` present, the
iteration cap handed to the clustering routine is `setup["K"]` when that
key is present and the default `30` otherwise. -/
theorem iteration_cap_default (ds : DState) (reps : Option (List Int))
    (t : String) (kw : KWArgs) (kml : KMeansLoop) (M : Nat)
    (hmiss : ds.data.trainers = none ∨ ds.data.trainers = some .invalid)
    (hsup : pyLower t ∈ kmeansNames)
    (hM : ds.setup.M = some M) :
    (ds.setup.K = none → (find_trainers ds reps t kw kml).kPassed = some 30) ∧
    ∀ k, ds.setup.K = some k →
      (find_trainers ds reps t kw kml).kPassed = some k := by
  have hmain : (find_trainers ds reps t kw kml).kPassed
      = some (ds.setup.K.getD 30) := by
    rcases hk : kml reps M (ds.setup.K.getD 30) kw with e | ⟨t_map, close_pts⟩
    · rcases hmiss with h | h <;> simp [find_trainers, hsup, h, hM, hk]
    · rcases hex : extract t_map close_pts M with _ | tr
      · rcases hmiss with h | h <;> simp [find_trainers, hsup, h, hM, hk, hex]
      · rw [find_trainers_miss_ok ds reps t kw kml M t_map close_pts tr
          hmiss hsup hM hk hex]
  refine ⟨fun hK => ?_, fun k hK => ?_⟩ <;> simp [hmain, hK]

/-- C9 witness (`K` absent, default 30). -/
theorem iteration_cap_default_witness :
    (((⟨⟨some 1, none⟩, ⟨none⟩⟩ : DState).data.trainers = none ∨
      (⟨⟨some 1, none⟩, ⟨none⟩⟩ : DState).data.trainers = some .invalid) ∧
     pyLower "kmeans" ∈ kmeansNames ∧
     (⟨⟨some 1, none⟩, ⟨none⟩⟩ : DState).setup.K = none) ∧
    (find_trainers ⟨⟨some 1, none⟩, ⟨none⟩⟩ none "kmeans" []
      (fun _ _ _ _ => .error .runtimeError)).kPassed = some 30 :=
  ⟨⟨Or.inl rfl, by decide, rfl⟩,
   (iteration_cap_default ⟨⟨some 1, none⟩, ⟨none⟩⟩ none "kmeans" []
     (fun _ _ _ _ => .error .runtimeError) 1 (Or.inl rfl) (by decide) rfl).1
     rfl⟩

/-!
Theorems about `Dataset.save`, `Dataset.load` and `Dataset.__init__`.
-/

/-- C7: `save` followed by `load` on the written location restores `setup`
and `data` exactly, for every structured document value. -/
theorem save_load_roundtrip (fs : FileSys) (loc : String) (s d : JVal)
    (g g' : Grand) (npy : NpyStore) :
    Dataset.save ⟨none, s, d, g⟩ (some loc) fs
      = .ok (fsWrite fs loc (JVal.jobj [("setup", s), ("data", d)])) ∧
    (Dataset.load ⟨none, JVal.null, JVal.null, g'⟩ (.strV loc) .noneV .noneV
      (fsWrite fs loc (JVal.jobj [("setup", s), ("data", d)])) npy).ret
      = .ok () ∧
    (Dataset.load ⟨none, JVal.null, JVal.null, g'⟩ (.strV loc) .noneV .noneV
      (fsWrite fs loc (JVal.jobj [("setup", s), ("data", d)])) npy).st.setup
      = s ∧
    (Dataset.load ⟨none, JVal.null, JVal.null, g'⟩ (.strV loc) .noneV .noneV
      (fsWrite fs loc (JVal.jobj [("setup", s), ("data", d)])) npy).st.data
      = d := by
  refine ⟨rfl, ?_, ?_, ?_⟩ <;>
    simp [Dataset.load, applyInpf, applyReps, applyVals, fsWrite, jlookup]

/-- `applyInpf` never touches the grand entries. -/
theorem applyInpf_grand (ds : DatasetP) (inpf : InpfArg) (fs : FileSys) :
    (applyInpf ds inpf fs).st.grand = ds.grand := by
  unfold applyInpf
  repeat' split
  all_goals rfl

/-- `applyReps` never touches the `"values"` entry. -/
theorem applyReps_values (ds : DatasetP) (reps : PyArg) (npy : NpyStore) :
    (applyReps ds reps npy).st.grand.values = ds.grand.values := by
  unfold applyReps
  repeat' split
  all_goals rfl

/-- C8: passing an in-memory dict as `inpf` does not succeed: the source's
dict branch reads the unbound local `inp` (a slip for `inpf`, core.py
lines 203 and 250), so both `__init__` and `load` raise `NameError` right
after assigning `setup`; `data` is never assigned from the dict. -/
theorem dict_inpf_raises_namerror :
    (Dataset.init (.dictV [("setup", JVal.jobj []), ("data", JVal.jobj [])])
      .noneV .noneV (fun _ => none) (fun _ => none)).ret
      = .error .nameError ∧
    (Dataset.load dsFresh
      (.dictV [("setup", JVal.jobj []), ("data", JVal.jobj [])])
      .noneV .noneV (fun _ => none) (fun _ => none)).ret
      = .error .nameError ∧
    (Dataset.load dsFresh
      (.dictV [("setup", JVal.jobj []), ("data", JVal.jobj [])])
      .noneV .noneV (fun _ => none) (fun _ => none)).st.setup
      = JVal.jobj [] ∧
    (Dataset.load dsFresh
      (.dictV [("setup", JVal.jobj []), ("data", JVal.jobj [])])
      .noneV .noneV (fun _ => none) (fun _ => none)).st.data
      = JVal.null :=
  ⟨rfl, rfl, rfl, rfl⟩

/-- C10 counterexample: `load` with a valid list `reps` and an invalid
`vals` raises `RuntimeError`, but the `"representations"` entry has
already been overwritten, so it does not retain its prior contents. -/
theorem bad_vals_after_good_reps_mutates :
    (Dataset.load ⟨none, JVal.null, JVal.null, ⟨some [9], some [7]⟩⟩
      .noneV (.listV [1, 2]) .otherV (fun _ => none) (fun _ => none)).ret
      = .error .runtimeError ∧
    (Dataset.load ⟨none, JVal.null, JVal.null, ⟨some [9], some [7]⟩⟩
      .noneV (.listV [1, 2]) .otherV (fun _ => none) (fun _ => none)).st.grand.representations
      = some [1, 2] ∧
    (⟨none, JVal.null, JVal.null, ⟨some [9], some [7]⟩⟩ : DatasetP).grand.representations
      = some [9] :=
  ⟨rfl, rfl, rfl⟩

/-- C10 (amended): an invalid `reps` or `vals` argument (not `None`, `str`,
`ndarray` or `list`) makes the operation raise `RuntimeError`; entries not
yet processed keep their prior contents — both entries when `reps` is the
invalid argument, the `"values"` entry when `vals` is — but a valid `reps`
in the same call updates `"representations"` before an invalid `vals`
raises.  For `__init__` the prior contents are the freshly initialized
`None` entries. -/
theorem bad_arg_raises_runtime_error (ds : DatasetP) (inpf : InpfArg)
    (reps vals : PyArg) (fs : FileSys) (npy : NpyStore) (st1 : DatasetP)
    (hin : applyInpf ds inpf fs = ⟨.ok (), st1⟩) :
    (reps = .otherV →
      Dataset.load ds inpf reps vals fs npy = ⟨.error .runtimeError, st1⟩ ∧
      st1.grand = ds.grand) ∧
    (vals = .otherV → ∀ st2, applyReps st1 reps npy = ⟨.ok (), st2⟩ →
      Dataset.load ds inpf reps vals fs npy = ⟨.error .runtimeError, st2⟩ ∧
      st2.grand.values = ds.grand.values) ∧
    (reps = .otherV → ∀ st1', applyInpf dsFresh inpf fs = ⟨.ok (), st1'⟩ →
      (Dataset.init inpf reps vals fs npy).ret = .error .runtimeError ∧
      (Dataset.init inpf reps vals fs npy).st.grand = ⟨none, none⟩) := by
  refine ⟨fun hr => ?_, fun hv st2 h2 => ?_, fun hr st1' hin' => ?_⟩
  · subst hr
    have hg : st1.grand = ds.grand := by
      have := applyInpf_grand ds inpf fs
      rw [hin] at this
      exact this
    exact ⟨by simp [Dataset.load, hin, applyReps], hg⟩
  · subst hv
    have hg : st2.grand.values = ds.grand.values := by
      have hb := applyReps_values st1 reps npy
      rw [h2] at hb
      have ha := applyInpf_grand ds inpf fs
      rw [hin] at ha
      rw [hb, ha]
    exact ⟨by simp [Dataset.load, hin, h2, applyVals], hg⟩
  · subst hr
    have hload : Dataset.load dsFresh inpf .otherV vals fs npy
        = ⟨.error .runtimeError, st1'⟩ := by
      simp [Dataset.load, hin', applyReps]
    have hg : st1'.grand = dsFresh.grand := by
      have := applyInpf_grand dsFresh inpf fs
      rw [hin'] at this
      exact this
    have hinit : Dataset.init inpf .otherV vals fs npy
        = Dataset.load dsFresh inpf .otherV vals fs npy := by
      cases inpf <;> rfl
    rw [hinit, hload]
    exact ⟨rfl, hg⟩

/-- C10 (amended) witness. -/
theorem bad_arg_raises_runtime_error_witness :
    (applyInpf ⟨none, JVal.null, JVal.null, ⟨some [9], some [7]⟩⟩ .noneV
        (fun _ => none)
      = ⟨.ok (), ⟨none, JVal.null, JVal.null, ⟨some [9], some [7]⟩⟩⟩ ∧
     (PyArg.otherV = PyArg.otherV)) ∧
    (Dataset.load ⟨none, JVal.null, JVal.null, ⟨some [9], some [7]⟩⟩ .noneV
        .otherV .noneV (fun _ => none) (fun _ => none)
      = ⟨.error .runtimeError, ⟨none, JVal.null, JVal.null, ⟨some [9], some [7]⟩⟩⟩ ∧
     (⟨none, JVal.null, JVal.null, ⟨some [9], some [7]⟩⟩ : DatasetP).grand
      = (⟨none, JVal.null, JVal.null, ⟨some [9], some [7]⟩⟩ : DatasetP).grand) :=
  ⟨⟨rfl, rfl⟩,
   (bad_arg_raises_runtime_error ⟨none, JVal.null, JVal.null, ⟨some [9], some [7]⟩⟩
     .noneV .otherV .noneV (fun _ => none) (fun _ => none)
     ⟨none, JVal.null, JVal.null, ⟨some [9], some [7]⟩⟩ rfl).1 rfl⟩
